import Mathlib

/-!
# Verification of the CATO reader's document-reconstruction engine

Shallow embedding of `src/cato_reader/PDFReader.py`, `geometry.py` and
`constants.py`.  Coordinates and color intensities are modelled as rationals
(the Python code only adds, subtracts, compares and averages them), text is
modelled as `String` with all operations implemented over `List Char`,
fallible Python code (assertions, `IndexError`, `ValueError`,
`StatisticsError`) is modelled with `Except String`, and the `logging`
side-channel is modelled as an explicit `List String` of emitted messages.
Python's `sorted` (a stable sort) is modelled by `List.insertionSort`.
-/

deriving instance DecidableEq for Except

namespace Cato

/-! ## Exact rational coordinates

Python's floats enter this program only through addition, subtraction,
halving, averaging, `abs`, `min` and comparisons, so the embedding models
them as exact rationals.  (Mathlib's `ℚ` is avoided only because its
normalizing arithmetic does not reduce under `decide`; `Q` below is an
unnormalized fraction with a positive denominator, with all operations
kernel-computable.)  A float literal such as `0.8` is modelled by the exact
rational `4/5` it denotes in the source text. -/

structure Q where
  num : Int
  den : Int
  dpos : 0 < den

instance : DecidableEq Q := fun a b =>
  if h : a.num = b.num ∧ a.den = b.den then
    isTrue (by cases a; cases b; cases h.1; cases h.2; rfl)
  else
    isFalse (fun e => h (by cases e; exact ⟨rfl, rfl⟩))

/-- Value-level order: `a ≤ b` iff `a.num * b.den ≤ b.num * a.den`. -/
def Q.Le (a b : Q) : Prop := a.num * b.den ≤ b.num * a.den

def Q.Lt (a b : Q) : Prop := a.num * b.den < b.num * a.den

/-- Value-level equality of fractions (cross multiplication). -/
def Q.Eqv (a b : Q) : Prop := a.num * b.den = b.num * a.den

instance : LE Q := ⟨Q.Le⟩

instance : LT Q := ⟨Q.Lt⟩

instance (a b : Q) : Decidable (a ≤ b) :=
  inferInstanceAs (Decidable (a.num * b.den ≤ b.num * a.den))

instance (a b : Q) : Decidable (a < b) :=
  inferInstanceAs (Decidable (a.num * b.den < b.num * a.den))

instance (a b : Q) : Decidable (Q.Eqv a b) := inferInstanceAs (Decidable (_ = _))

def Q.ofInt (n : Int) : Q := ⟨n, 1, Int.one_pos⟩

instance (n : Nat) : OfNat Q n := ⟨Q.ofInt n⟩

instance : Add Q :=
  ⟨fun a b => ⟨a.num * b.den + b.num * a.den, a.den * b.den, mul_pos a.dpos b.dpos⟩⟩

instance : Neg Q := ⟨fun a => ⟨-a.num, a.den, a.dpos⟩⟩

instance : Sub Q := ⟨fun a b => a + -b⟩

/-- `abs` on coordinates (Python `abs`). -/
def Q.qabs (a : Q) : Q := ⟨|a.num|, a.den, a.dpos⟩

/-- Exact division by two (Python float `/ 2`). -/
def Q.half (a : Q) : Q := ⟨a.num, a.den * 2, mul_pos a.dpos (by omega)⟩

/-- Python's binary `min` (ties keep the first argument). -/
def Q.qmin (a b : Q) : Q := if b < a then b else a

theorem Q.le_total' (a b : Q) : a ≤ b ∨ b ≤ a := Int.le_total _ _

theorem Q.le_trans' {a b c : Q} (h1 : a ≤ b) (h2 : b ≤ c) : a ≤ c := by
  have hb := b.dpos
  have h1' := mul_le_mul_of_nonneg_right h1 (le_of_lt c.dpos)
  have h2' := mul_le_mul_of_nonneg_right h2 (le_of_lt a.dpos)
  have h3 : a.num * c.den * b.den ≤ c.num * a.den * b.den := by nlinarith
  exact le_of_mul_le_mul_right h3 hb

theorem Q.lt_of_le_of_not_eqv {a b : Q} (h : a ≤ b) (hne : ¬ Q.Eqv a b) : a < b :=
  lt_of_le_of_ne h hne

theorem Q.nlt_of_le {a b : Q} (h : a ≤ b) : ¬ b < a :=
  fun hlt => absurd (Int.lt_of_lt_of_le hlt h) (Int.lt_irrefl _)

/-! ## Python-style string primitives (over `List Char`) -/

/-- Python whitespace stripped by `str.strip()`. -/
def isPySpace (c : Char) : Bool :=
  c == ' ' || c == '\t' || c == '\n' || c == '\r' || c == '\x0b' || c == '\x0c'

/-- `str.strip()`: remove leading and trailing whitespace. -/
def listStrip (cs : List Char) : List Char :=
  ((cs.dropWhile isPySpace).reverse.dropWhile isPySpace).reverse

/-- `str.strip('\n')`: remove leading and trailing newline characters. -/
def listStripNl (cs : List Char) : List Char :=
  ((cs.dropWhile (· == '\n')).reverse.dropWhile (· == '\n')).reverse

/-- Python `str.lower()` restricted to the characters that occur in this
program's inputs: ASCII letters plus the German umlauts used by the
keyword catalogues. -/
def charLower (c : Char) : Char :=
  if 'A' ≤ c ∧ c ≤ 'Z' then Char.ofNat (c.toNat + 32)
  else if c = 'Ä' then 'ä'
  else if c = 'Ö' then 'ö'
  else if c = 'Ü' then 'ü'
  else c

def pyLower (s : String) : String :=
  String.mk (s.toList.map charLower)

def pyStrip (s : String) : String := String.mk (listStrip s.toList)

def pyStripNl (s : String) : String := String.mk (listStripNl s.toList)

/-- Python's substring test `needle in hay`. -/
def listContainsSub (needle hay : List Char) : Bool :=
  (List.range (hay.length + 1)).any (fun i => needle.isPrefixOf (hay.drop i))

/-- `needle in hay` on strings. -/
def pyIn (needle hay : String) : Bool :=
  listContainsSub needle.toList hay.toList

/-- Index of the first occurrence of `needle` inside `hay`, if any. -/
def firstIndexOfSub (needle hay : List Char) : Option Nat :=
  (List.range (hay.length + 1)).find? (fun i => needle.isPrefixOf (hay.drop i))

/-- Fuel-bounded core of Python `str.split(sep)` (non-overlapping,
left-to-right).  The fuel argument only bounds the recursion; with
`fuel = cs.length + 1` and a nonempty separator it is never exhausted. -/
def listSplitOnCore (sep : List Char) : Nat → List Char → List (List Char)
  | 0, cs => [cs]
  | _ + 1, [] => [[]]
  | fuel + 1, c :: rest =>
    if sep.isPrefixOf (c :: rest) then
      [] :: listSplitOnCore sep fuel ((c :: rest).drop sep.length)
    else
      match listSplitOnCore sep fuel rest with
      | [] => [[c]]
      | h :: t => (c :: h) :: t

/-- Python `str.split(sep)` for a nonempty separator. -/
def listSplitOn (sep cs : List Char) : List (List Char) :=
  if sep.isEmpty then [cs] else listSplitOnCore sep (cs.length + 1) cs

def pySplit (sep s : String) : List String :=
  (listSplitOn sep.toList s.toList).map String.mk

/-- Python `int(...)` as used in this program: the call sites only feed it
strings whose significant part is a nonempty run of decimal digits (they are
produced by `\d+` regex matches), so the model accepts exactly
whitespace-padded digit runs and raises `ValueError` otherwise. -/
def digitsToNat (cs : List Char) : Nat :=
  cs.foldl (fun n c => n * 10 + (c.toNat - 48)) 0

def pyInt (s : String) : Except String Int :=
  let t := listStrip s.toList
  if t ≠ [] ∧ t.all Char.isDigit then
    .ok (Int.ofNat (digitsToNat t))
  else
    .error "ValueError: invalid literal for int"

/-! ## The regular-expression fragments used by the reader

Only four concrete patterns are searched for (with `re.search`); each is
implemented directly.  `\w` is modelled as ASCII alphanumeric or underscore
(the captured groups are person initials and digit runs). -/

def isWordChar (c : Char) : Bool := c.isAlphanum || c == '_'

/-- A "paren site" at position `i`: the text has `'('` at `i`, followed by a
maximal (possibly empty) run of word characters, immediately followed by
`')'`.  These are exactly the positions where `\((\w*)\)` can match, and the
word run is the captured group. -/
def parenSiteAt (cs : List Char) (i : Nat) : Option (List Char) :=
  match cs.drop i with
  | '(' :: rest =>
    match rest.dropWhile isWordChar with
    | ')' :: _ => some (rest.takeWhile isWordChar)
    | _ => none
  | _ => none

/-- `re.search(r'\((\w*)\)', s)`: leftmost match; group 1. -/
def searchParen (s : String) : Option String :=
  (((List.range s.toList.length).filterMap (parenSiteAt s.toList)).head?).map String.mk

/-- `re.search(label + r'.*\((\w*)\)', s)` where `label` is a literal such as
`"Arzt:"`.  `re.search` anchors at the first occurrence of the literal; the
greedy `.*` then selects the **last** paren site after it; group 1 is that
site's word run. -/
def searchLabelParen (label : String) (s : String) : Option String :=
  let cs := s.toList
  match firstIndexOfSub label.toList cs with
  | none => none
  | some p0 =>
    (((List.range cs.length).filterMap (fun i =>
        if p0 + label.length ≤ i then parenSiteAt cs i else none)).getLast?).map String.mk

/-- `re.search(r'Zyklus:.*Zyklus (\d*)', s)`: anchored at the first
`"Zyklus:"`, the greedy `.*` selects the last later occurrence of
`"Zyklus "`; group 1 is the (possibly empty) digit run following it. -/
def zyklusSearch (s : String) : Option String :=
  let cs := s.toList
  match firstIndexOfSub "Zyklus:".toList cs with
  | none => none
  | some p0 =>
    ((List.range (cs.length + 1)).filterMap (fun i =>
        if p0 + 7 ≤ i ∧ "Zyklus ".toList.isPrefixOf (cs.drop i) then
          some (String.mk ((cs.drop (i + 7)).takeWhile Char.isDigit))
        else none)).getLast?

/-- One candidate match of `r'Tag (\d*) - Tag (\d*) der'` starting at `i`. -/
def daySiteAt (cs : List Char) (i : Nat) : Option (String × String) :=
  let t := cs.drop i
  if "Tag ".toList.isPrefixOf t then
    let r1 := t.drop 4
    let d1 := r1.takeWhile Char.isDigit
    let r2 := r1.dropWhile Char.isDigit
    if " - Tag ".toList.isPrefixOf r2 then
      let r3 := r2.drop 7
      let d2 := r3.takeWhile Char.isDigit
      let r4 := r3.dropWhile Char.isDigit
      if " der".toList.isPrefixOf r4 then some (String.mk d1, String.mk d2) else none
    else none
  else none

/-- `re.search(r'Tag (\d*) - Tag (\d*) der', s)`: leftmost match, groups 1–2.
(The digit runs are maximal, so no backtracking is possible.) -/
def daySearch (s : String) : Option (String × String) :=
  ((List.range s.toList.length).filterMap (daySiteAt s.toList)).head?

/-! ## geometry.py: color handling (`is_visible`, `color_float`)

A pdfminer color value is, at runtime, Python `None`, an `int`, a `float`,
a tuple of numeric components, or (for patterned fills) a `list`.  The code
dispatches on the runtime type with `isinstance`, so the embedding keeps the
type tag.  Numeric values are rationals. -/

inductive PyColor where
  | pynone : PyColor
  | pyint : Int → PyColor
  | pyfloat : Q → PyColor
  | pytuple : List Q → PyColor
  | pylist : List Q → PyColor
deriving DecidableEq

/-- `statistics.mean` of a sequence of numbers: the exact sum divided by the
length; raises `StatisticsError` on an empty sequence. -/
def pyMean : List Q → Except String Q
  | [] => .error "StatisticsError: mean requires at least one data point"
  | q :: rest =>
    let s := rest.foldl (· + ·) q
    .ok ⟨s.num, s.den * ((rest.length : Int) + 1), mul_pos s.dpos (by omega)⟩

/-- Truthiness of a Python value that is `True`, `False` or `None`
(`None` is falsy). -/
def pyTruthy : Option Bool → Bool
  | none => false
  | some b => b

/-- `geometry.is_visible` (geometry.py lines 135-143).  The Python function
returns `True`, `False`, or — when `color` is none of `None`/`int`/`list`/
`tuple`, e.g. a `float` — falls off the end and returns `None`; it raises
only when `statistics.mean` is applied to an empty tuple. -/
def is_visible : PyColor → Except String (Option Bool)
  | .pynone => .ok (some false)
  | .pyint n => .ok (some (decide (n < 1)))
  | .pylist _ => .ok (some false)
  | .pytuple vs => (pyMean vs).map (fun m => some (decide (m < Q.ofInt 1)))
  | .pyfloat _ => .ok none

/-- `geometry.color_float` (geometry.py lines 146-155): `1.0` whenever
`is_visible` is falsy, otherwise the mean (tuple) or the value (int).
A visible-int color reaches the final `isinstance(color, int)` branch. -/
def color_float (c : PyColor) : Except String Q := do
  let v ← is_visible c
  if pyTruthy v then
    match c with
    | .pytuple vs => pyMean vs
    | .pylist _ => pure 1
    | .pyint n => pure (Q.ofInt n)
    | _ => pure 1
  else
    pure 1

/-! ## PDFReader.py: marker detection and region assembly

Module constants (PDFReader.py lines 29-32). -/

def PRE_VISIT_DIST : Q := 10
def PRE_RECORD_DIST : Q := 20
def PRE_PAGE_END_DIST : Q := 70
def RECORD_WIDTH : Q := 553

/-- A visible rectangle as seen by `Page.get_visits` / `Page.get_records`.
`colorF` is the value `color_float(r.non_stroking_color)` (the rectangles in
`self.rectangles` already passed the `color_float(...) < 1` filter of
`Page.__init__`, so `color_float` is defined on them; only its rational
result matters to the marker filters). -/
structure Rect where
  x0 : Q
  y0 : Q
  x1 : Q
  y1 : Q
  colorF : Q
deriving DecidableEq

/-- An axis-aligned box `(x0, y0, x1, y1)` (the `Box` namedtuple). -/
structure Box where
  x0 : Q
  y0 : Q
  x1 : Q
  y1 : Q
deriving DecidableEq

/-- The float literals `0.8` and `0.85` of line 471, as exact rationals. -/
def qGray0 : Q := ⟨4, 5, by omega⟩

def qGray1 : Q := ⟨17, 20, by omega⟩

/-- Visit-marker filter (line 471): medium-gray fill, width > 500. -/
def visitCond (r : Rect) : Bool :=
  decide (qGray0 < r.colorF ∧ r.colorF < qGray1 ∧ (500 : Q) < (r.x1 - r.x0).qabs)

/-- Record-marker filter (lines 491-492): black fill, both sides > 11. -/
def recCond (r : Rect) : Bool :=
  decide (Q.Eqv r.colorF 0 ∧ (11 : Q) < (r.x1 - r.x0).qabs ∧ (11 : Q) < (r.y1 - r.y0).qabs)

/-- Ascending-by-`y0` order used by `sorted(..., key=lambda r: r.y0)`. -/
def leY0 (a b : Rect) : Prop := a.y0 ≤ b.y0

/-- Descending-by-`y0` order used with `reverse=True`. -/
def geY0 (a b : Rect) : Prop := b.y0 ≤ a.y0

instance : DecidableRel leY0 := fun a b => inferInstanceAs (Decidable (a.y0 ≤ b.y0))

instance : DecidableRel geY0 := fun a b => inferInstanceAs (Decidable (b.y0 ≤ a.y0))

instance : IsTotal Rect leY0 := ⟨fun a b => Q.le_total' a.y0 b.y0⟩

instance : IsTrans Rect leY0 := ⟨fun _ _ _ h h' => Q.le_trans' h h'⟩

instance : IsTotal Rect geY0 := ⟨fun a b => Q.le_total' b.y0 a.y0⟩

instance : IsTrans Rect geY0 := ⟨fun _ _ _ h h' => Q.le_trans' h' h⟩

/-- The detected visit markers of a page, sorted ascending by `y0`
(line 470-472; Python's `sorted` is stable, as is insertion sort). -/
def visitMarkersOf (rects : List Rect) : List Rect :=
  (rects.filter visitCond).insertionSort leY0

/-- The detected record markers, sorted descending by `y0` (lines 491-493). -/
def recMarkersOf (rects : List Rect) : List Rect :=
  (rects.filter recCond).insertionSort geY0

/-- `zip(lst[::2], lst[1::2])`: consecutive two-at-a-time grouping; an odd
trailing element is dropped. -/
def pairUp {α : Type} : List α → List (α × α)
  | a :: b :: rest => (a, b) :: pairUp rest
  | _ => []

/-- The visit-marker pairs of a page (line 474). -/
def visitTags (rects : List Rect) : List (Rect × Rect) :=
  pairUp (visitMarkersOf rects)

/-- The record-marker pairs of a page (line 494). -/
def recTags (rects : List Rect) : List (Rect × Rect) :=
  pairUp (recMarkersOf rects)

/-- `Page.get_visits` (lines 469-478): one `Box(t0.x0, t0.y0, t1.x1, t1.y1)`
per pair.  The second component is the list of log messages the function
emits: the source contains no logging call, so it is always empty. -/
def get_visits (rects : List Rect) : List Box × List String :=
  ((visitTags rects).map (fun t => ⟨t.1.x0, t.1.y0, t.2.x1, t.2.y1⟩), [])

/-- The tentative end `y` of a record: the next record pair's lower marker's
`y1` plus `PRE_RECORD_DIST` when a next pair exists, else the page-bottom
sentinel `PRE_PAGE_END_DIST` (lines 500-503). -/
def recordTentativeY : List (Rect × Rect) → Q
  | [] => PRE_PAGE_END_DIST
  | nt :: _ => nt.2.y1 + PRE_RECORD_DIST

/-- The first visit whose top edge `y1` lies strictly between the tentative
end and the record start (lines 506-511; `following_visit[0]`). -/
def followingVisit (visits : List Box) (tentY startY : Q) : Option Box :=
  visits.find? (fun v => decide (tentY < v.y1 ∧ v.y1 < startY))

/-- The bounding box of one record given its marker pair `tag` and the list
`rest` of the later marker pairs on the page (lines 497-514). -/
def recordBoxOf (visits : List Box) (tag : Rect × Rect) (rest : List (Rect × Rect)) : Box :=
  let startX := tag.1.x0
  let startY := tag.1.y1
  let tentY := recordTentativeY rest
  match followingVisit visits tentY startY with
  | none => ⟨startX, startY, RECORD_WIDTH, tentY⟩
  | some fw => ⟨startX, startY, fw.x1, fw.y1 + PRE_VISIT_DIST⟩

/-- A constructed `Record` object (the geometric part relevant here). -/
structure RecordObj where
  anchor : Rect × Rect
  bbox : Box
deriving DecidableEq

/-- `Record.__init__`'s geometry checks (lines 527-536): the constructor
asserts `anchor[0].y0 > anchor[1].y0` and raises `AssertionError` otherwise. -/
def mkRecord (anchor : Rect × Rect) (bbox : Box) : Except String RecordObj :=
  if anchor.1.y0 > anchor.2.y0 then
    .ok ⟨anchor, bbox⟩
  else
    .error "AssertionError: Order of elements not as expected!"

/-- The loop body of `Page.get_records` (lines 496-517): records are
constructed in page order; the first failing assertion aborts. -/
def buildRecords (visits : List Box) : List (Rect × Rect) → Except String (List RecordObj)
  | [] => .ok []
  | tag :: rest => do
    let r ← mkRecord tag (recordBoxOf visits tag rest)
    let rs ← buildRecords visits rest
    .ok (r :: rs)

/-- `Page.get_records` (lines 480-517), fed by the page's visits as computed
by `Page.get_visits` (line 394 precedes line 395).  No logging call occurs
in the marker-pairing code. -/
def get_records (rects : List Rect) : Except String (List RecordObj) :=
  buildRecords (get_visits rects).1 (recTags rects)

/-! ## Text lines and the drug catalogues (constants.py) -/

/-- A pdfminer text line: a bounding box and its text content. -/
structure TextLine where
  x0 : Q
  y0 : Q
  x1 : Q
  y1 : Q
  text : String
deriving DecidableEq

/-- Python `min` over a nonempty list (`<` keeps the earliest minimum).
Only called on nonempty lists; the empty case returns `0`. -/
def listMinQ : List Q → Q
  | [] => 0
  | q :: rest => rest.foldl (fun m x => if x < m then x else m) q

/-- First element of `xs` on which `f` fires, together with `f`'s value
(the `for ... if re_result: ... break` idiom). -/
def firstMatch {α β : Type} (f : α → Option β) : List α → Option (α × β)
  | [] => none
  | x :: rest =>
    match f x with
    | some b => some (x, b)
    | none => firstMatch f rest

def DRUGS_OF_INTEREST : List String :=
  ["Doxorubicinhydrochlorid", "Dacarbazin", "Cisplatin", "5-Fluorouracil", "Cardioxane",
   "Irinotecanhydrochlorid-Trihydrat", "Ribosofol INJ/INF-LOE", "Oxaliplatin", "Oncofolic",
   "Cetuximab", "Calciumfolinat", "Uromitexan Multidose", "Ifosfamid", "Bevacizumab", "Unacid"]

def DRUGS_OF_NOTE : List String := ["Dexamethason", "Granisetron"]

/-- `DRUGS_OF_LOW_PRIORITY` dict: `(key, value)` pairs in insertion order. -/
def DRUGS_OF_LOW_PRIORITY : List (String × String) :=
  [("NaCl 0,9% 250ml Flasche Glas SWB", "NaCl")]

def EXCLUDED_TREATMENT_KEYWORDS : List String :=
  ["alternativ", "parallel", "spülen", "nach", "vor", "hinweis", "beachten"]

/-! ## Entry.get_data (PDFReader.py lines 58-293) -/

/-- The lines of the page whose vertical midpoint falls strictly inside the
entry's bounding box (lines 61-62); `textlines` is the page's flattened
text-line list. -/
def entryLinesOf (textlines : List TextLine) (bbox : Box) : List TextLine :=
  textlines.filter (fun tl => decide (bbox.y0 < (tl.y1 + tl.y0).half ∧ (tl.y1 + tl.y0).half < bbox.y1))

/-- `int(med_item.get_text().strip().split('Med. Nr.:')[1])` (line 65):
raises `IndexError` when the text does not contain the tag and `ValueError`
when the remainder is not a digit run. -/
def pyMedNr (t : String) : Except String Int :=
  match (listSplitOn "Med. Nr.:".toList (listStrip t.toList)).get? 1 with
  | none => .error "IndexError: list index out of range"
  | some seg => pyInt (String.mk seg)

/-- `start, end = timestamp.split(' - ') if ' - ' in timestamp else
(timestamp, timestamp)` on the stripped timestamp text (lines 67-68);
unpacking raises `ValueError` unless the split yields exactly two parts. -/
def pyTimestampSplit (t : String) : Except String (String × String) :=
  let ts := String.mk (listStrip t.toList)
  if pyIn " - " ts then
    match pySplit " - " ts with
    | [a, b] => .ok (a, b)
    | _ => .error "ValueError: unpacking"
  else
    .ok (ts, ts)

/-- The shared shape of the three role blocks of `Entry.get_data`
(`Arzt` lines 85-114, `Apotheker` lines 116-144, `Verabreicht` lines
146-175), which differ only in the label and the stage-B edge offset and
line filter.  Returns the resolved initials (if any), the lines appended to
`end_of_entry_elements`, and the emitted log messages.

Stage A: first line containing the label whose stripped text matches
`r'<label>:.*\((\w*)\)'`; the group is lowercased and the loop breaks.
Stage B (no stage-A match but label lines exist): `edge` is the minimum
label-line `y0` plus the role's offset; the role's filter selects candidate
lines; each lowercased candidate matching `r'\((\w*)\)'` reassigns the
value and appends the line (no break, so the last match wins). -/
def resolveRole (label : String) (edgeDelta : Q) (stageB : Q → TextLine → Bool)
    (lines : List TextLine) : Option String × List TextLine × List String :=
  let label_lines := lines.filter (fun ln => pyIn label ln.text)
  match firstMatch (fun ln => searchLabelParen (label ++ ":") (pyStripNl ln.text)) label_lines with
  | some (ln, g) => (some (pyLower g), [ln], [])
  | none =>
    if label_lines.isEmpty then
      (none, [], ["debug: No lines matching " ++ label ++ "!"])
    else
      let edge := listMinQ (label_lines.map (·.y0)) + edgeDelta
      let next_lines := lines.filter (stageB edge)
      if next_lines.isEmpty then
        (none, [], ["warning: No " ++ label ++ " on second try."])
      else
        let hits := next_lines.filterMap (fun ln => (searchParen (pyLower ln.text)).map (fun g => (ln, g)))
        match hits.getLast? with
        | some (_, g) => (some g, hits.map Prod.fst, [])
        | none => (none, [], [])

/-- The `Arzt` block: `edge = min(y0) - 1`; stage-B lines have `y0 < edge`
and `x0 < 150` (lines 103-104). -/
def resolveArzt : List TextLine → Option String × List TextLine × List String :=
  resolveRole "Arzt" (-1) (fun edge ln => decide (ln.y0 < edge) && decide (ln.x0 < (150 : Q)))

/-- The `Apotheker` block: `edge = min(y0) + 1`; stage-B lines have
`y1 < edge` and `200 < x0 < 350` (lines 134-135). -/
def resolveApotheker : List TextLine → Option String × List TextLine × List String :=
  resolveRole "Apotheker" 1 (fun edge ln =>
    decide (ln.y1 < edge) && decide ((200 : Q) < ln.x0) && decide (ln.x0 < (350 : Q)))

/-- The `Verabreicht` block: `edge = min(y0) - 1`; stage-B lines have
`y1 < edge` and `x0 > 300` (lines 165-166). -/
def resolveVerabreicht : List TextLine → Option String × List TextLine × List String :=
  resolveRole "Verabreicht" (-1) (fun edge ln => decide (ln.y1 < edge) && decide ((300 : Q) < ln.x0))

/-- `end_of_entry_elements` after the three role blocks ran (appends happen
in source order: Arzt, then Apotheker, then Verabreicht). -/
def entryEndElems (lines : List TextLine) : List TextLine :=
  (resolveArzt lines).2.1 ++ (resolveApotheker lines).2.1 ++ (resolveVerabreicht lines).2.1

/-- `limit = min(min(ln.y0, ln.y1) for ln in end_of_entry_elements)`
(line 190). -/
def entryLimit (lines : List TextLine) : Q :=
  listMinQ ((entryEndElems lines).map (fun ln => Q.qmin ln.y0 ln.y1))

/-- The lines kept by the trailing-boundary cleanup (lines 192-202):
those with `y1 > limit - 15`. -/
def entryKeptLines (lines : List TextLine) : List TextLine :=
  lines.filter (fun ln => decide (entryLimit lines - 15 < ln.y1))

/-- A line containing one of the excluded-treatment keywords
(case-insensitively: the keyword catalogue is lowercase and the line is
lowercased before the test, line 220). -/
def excludedLine (t : String) : Bool :=
  EXCLUDED_TREATMENT_KEYWORDS.any (fun kw => pyIn kw (pyLower t))

/-- The raw drug-match list (lines 216-224): for each catalogue drug in
priority order, one occurrence per line that contains the drug name
(case-sensitively) and no exclusion keyword. -/
def drugsRaw (texts : List String) : List String :=
  DRUGS_OF_INTEREST.flatMap (fun d =>
    (texts.filter (fun t => pyIn d t && !excludedLine t)).map (fun _ => d))

/-- The raw premed-match list from the note catalogue (lines 257-261). -/
def notesRaw (texts : List String) : List String :=
  DRUGS_OF_NOTE.flatMap (fun pm =>
    (texts.filter (fun t => pyIn pm t && !excludedLine t)).map (fun _ => pm))

/-- The last-resort low-priority matches (lines 272-277): the dict value is
searched for, the dict key is appended. -/
def lowPriorityRaw (texts : List String) : List String :=
  DRUGS_OF_LOW_PRIORITY.flatMap (fun pk =>
    (texts.filter (fun t => pyIn pk.2 t && !excludedLine t)).map (fun _ => pk.1))

/-- The surviving primary-catalogue matches: `list(set(drugs))` modelled by
the caller-supplied `dedup` (CPython's `set` iteration order is
unspecified), then each note-catalogue drug removed (lines 225, 238-245). -/
def survivingDrugs (dedup : List String → List String) (texts : List String) : List String :=
  let drugs := dedup (drugsRaw texts)
  let swap := drugs.filter (fun d => DRUGS_OF_NOTE.contains d)
  swap.foldl (fun ds sd => ds.erase sd) drugs

/-- A `dedup` function is a legal model of `list(set(...))`: it returns the
distinct elements in some order. -/
def IsDedup (f : List String → List String) : Prop :=
  ∀ l : List String, (f l).Nodup ∧ ∀ x, x ∈ f l ↔ x ∈ l

/-- The `EntryData` mapping built by `Entry.get_data` (lines 70-80 and
286-291).  `tStart`/`tEnd` model the `start`/`end` keys. -/
structure EntryData where
  mednr : Int
  tStart : String
  tEnd : String
  application : Option String
  premed : Option String
  drug : Option String
  arzt : Option String
  apotheker : Option String
  verabreicht : Option String
  exclusion : Option String
deriving DecidableEq

/-- `Entry.get_data` (lines 58-293).  `lines` is the midpoint-filtered line
list (see `entryLinesOf`), `tsText`/`medText` the anchor texts.  Returns
the emitted log messages and either the `EntryData` dict or the raised
exception. -/
def entryGetData (dedup : List String → List String) (lines : List TextLine)
    (tsText medText : String) : List String × Except String EntryData :=
  match pyMedNr medText with
  | .error e => ([], .error e)
  | .ok mednr =>
  match pyTimestampSplit tsText with
  | .error e => ([], .error e)
  | .ok (tStart, tEnd) =>
  let ra := resolveArzt lines
  let rp := resolveApotheker lines
  let rn := resolveVerabreicht lines
  let logs0 := ra.2.2 ++ rp.2.2 ++ rn.2.2
  if (entryEndElems lines).isEmpty then
    let cancelled := lines.any (fun ln => pyIn "storniert" (pyLower ln.text))
    (logs0 ++ ["debug: Invalid entry. Cancelled?"],
     .ok ⟨mednr, tStart, tEnd, none, none, none, none, none, none,
          some (if cancelled then "CancelledEntry" else "InvalidEntry")⟩)
  else
    let kept := entryKeptLines lines
    let logs1 := if kept.length < lines.length then ["warning: Removed lines from entry"] else []
    let texts := kept.map (·.text)
    let infusion := texts.any (fun t => pyIn "intravenöse infusion" (pyLower (pyStripNl t)))
    let injection := texts.any (fun t => pyIn "intravenöse injektion" (pyLower (pyStripNl t)))
    let application := if infusion then "infusion" else if injection then "injection" else "other"
    let drugs := survivingDrugs dedup texts
    let swap := (dedup (drugsRaw texts)).filter (fun d => DRUGS_OF_NOTE.contains d)
    let logs2 := if 1 < drugs.length then ["warning: Multiple notable drugs found"] else []
    let premeds := dedup (swap ++ notesRaw texts)
    let finalDrug :=
      if drugs.length = 1 then drugs.headD ""
      else if 1 < drugs.length then String.intercalate "+" drugs
      else ""
    let premeds2 := if drugs.isEmpty && premeds.isEmpty then premeds ++ lowPriorityRaw texts else premeds
    let finalPremed :=
      if premeds2.length = 1 then premeds2.headD ""
      else if 1 < premeds2.length then String.intercalate "+" premeds2
      else ""
    (logs0 ++ logs1 ++ logs2,
     .ok ⟨mednr, tStart, tEnd, some application, some finalPremed, some finalDrug,
          ra.1, rp.1, rn.1, none⟩)

/-! ## Record.get_data (PDFReader.py lines 545-589) -/

/-- The `RecordData` mapping.  `dateObj` is whatever the locale-aware
`datetime.strptime` collaborator returns (the date parser is outside the
core, so it is a parameter of type `α`). -/
structure RecordData (α : Type) where
  dateObj : α
  zyklus : Option String
  date : String
  dayCycle : String
  dayProtocol : String
  locale : String
  pageID : Nat
  pageNumber : Int
deriving DecidableEq

/-- The text lines whose midpoint lies strictly inside the vertical span of
the upper anchor marker (lines 546-547). -/
def protokollOf (textlines : List TextLine) (anchor : Rect × Rect) : List TextLine :=
  textlines.filter (fun tl =>
    decide (anchor.1.y0 < (tl.y1 + tl.y0).half ∧ (tl.y1 + tl.y0).half < anchor.1.y1))

/-- The header lines: midpoint inside the lower anchor marker's span,
sorted by `x0` ascending (lines 559-561). -/
def headerOf (textlines : List TextLine) (anchor : Rect × Rect) : List TextLine :=
  (textlines.filter (fun tl =>
    decide (anchor.2.y0 < (tl.y1 + tl.y0).half ∧ (tl.y1 + tl.y0).half < anchor.2.y1))).insertionSort
    (fun a b => a.x0 ≤ b.x0)

instance : DecidableRel (fun (a b : TextLine) => a.x0 ≤ b.x0) :=
  fun a b => inferInstanceAs (Decidable (a.x0 ≤ b.x0))

/-- `Record.get_data` (lines 545-589).  `strptime` is the locale
collaborator parsing the `'%a, %d. %b %Y'` date format.  Returns the log
messages emitted up to the outcome, and the `RecordData` or the raised
exception (`AssertionError` from line 548, a date `ValueError` from
line 567, or `IndexError` from the `header_verordnung[0..2]` accesses). -/
def recordGetData {α : Type} (strptime : String → Except String α)
    (textlines : List TextLine) (anchor : Rect × Rect) (pageID : Nat) (pageNumber : Int) :
    List String × Except String (RecordData α) :=
  let protokoll := protokollOf textlines anchor
  if protokoll.length ≠ 1 then
    ([], .error "AssertionError: Record header Protokoll extraction failed!")
  else
    let zyklus := (firstMatch (fun ln => zyklusSearch (pyStripNl ln.text)) protokoll).map (·.2)
    let header := headerOf textlines anchor
    let logs := if header.length ≠ 3 then ["debug: Header length not 3"] else []
    match header.get? 0 with
    | none => (logs, .error "IndexError: list index out of range")
    | some h0 =>
      match strptime (pyStripNl h0.text) with
      | .error e => (logs, .error e)
      | .ok dateObj =>
        match header.get? 1 with
        | none => (logs, .error "IndexError: list index out of range")
        | some h1 =>
          let days := daySearch (pyStripNl h1.text)
          let dayCycle := (days.map (·.1)).getD ""
          let dayProtocol := (days.map (·.2)).getD ""
          match header.get? 2 with
          | none => (logs, .error "IndexError: list index out of range")
          | some h2 =>
            let locStr := pyStripNl h2.text
            let place := if pyIn "|" locStr then (pySplit " |" locStr).headD "" else "unknown"
            (logs, .ok ⟨dateObj, zyklus, pyStripNl h0.text, dayCycle, dayProtocol, place,
                        pageID, pageNumber⟩)

/-! ## PDF.to_dict (PDFReader.py lines 653-715): per-entry item assembly -/

/-- The fields of one emitted flat record that take part in the exclusion
logic; the remaining fields are copied verbatim from the entry/record data
and do not interact with it. -/
structure FlatItem where
  datum : String
  timeStart : String
  timeEnd : String
  isoStart : String
  isoEnd : String
  exportDate : String
  exclusion : String
deriving DecidableEq

/-- Assembly of one output item (lines 679-711): the entry's exclusion tag
(`''` when `None`, line 679) is written into the item, then overwritten
with `'ExportDuringTreatment'` whenever the page's export date occurs as a
substring of the item's ISO start timestamp (lines 709-711).  The ISO
strings come from the `datetime` collaborator. -/
def assembleFlatItem (lastDate tStart tEnd isoStart isoEnd exportDate : String)
    (entryExclusion : Option String) : FlatItem :=
  let exclusion := match entryExclusion with | none => "" | some s => s
  let item : FlatItem := ⟨lastDate, tStart, tEnd, isoStart, isoEnd, exportDate, exclusion⟩
  if pyIn item.exportDate item.isoStart then
    { item with exclusion := "ExportDuringTreatment" }
  else
    item

/-! ## Helper lemmas -/

theorem pairUp_length {α : Type} : ∀ l : List α, (pairUp l).length = l.length / 2
  | [] => by simp [pairUp]
  | [_] => by simp [pairUp]
  | _ :: _ :: t => by
    have ih := pairUp_length t
    simp only [pairUp, List.length_cons, ih]
    omega

theorem pairUp_rel {α : Type} {R : α → α → Prop} :
    ∀ l : List α, l.Pairwise R → ∀ p ∈ pairUp l, R p.1 p.2
  | [], _, p, hp => by simp [pairUp] at hp
  | [_], _, p, hp => by simp [pairUp] at hp
  | a :: b :: t, h, p, hp => by
    rw [pairUp] at hp
    rcases List.mem_cons.mp hp with h1 | h2
    · subst h1
      exact (List.pairwise_cons.mp h).1 b (List.mem_cons_self _ _)
    · exact pairUp_rel t (List.pairwise_cons.mp (List.pairwise_cons.mp h).2).2 p h2

theorem buildRecords_ok (visits : List Box) :
    ∀ tags : List (Rect × Rect), (∀ p ∈ tags, p.2.y0 < p.1.y0) →
      ∃ rs, buildRecords visits tags = .ok rs ∧ rs.length = tags.length
  | [], _ => ⟨[], rfl, rfl⟩
  | t :: rest, h => by
    obtain ⟨rs, hrs, hlen⟩ :=
      buildRecords_ok visits rest (fun p hp => h p (List.mem_cons_of_mem _ hp))
    have ht : t.2.y0 < t.1.y0 := h t (List.mem_cons_self _ _)
    refine ⟨⟨t, recordBoxOf visits t rest⟩ :: rs, ?_, by simp [hlen]⟩
    unfold buildRecords
    rw [hrs]
    unfold mkRecord
    rw [if_pos ht]
    rfl

/-- In every branch where a role resolves to no value, no line was appended
to `end_of_entry_elements`. -/
theorem resolveRole_shape (label : String) (edgeDelta : Q) (stageB : Q → TextLine → Bool)
    (lines : List TextLine) :
    (resolveRole label edgeDelta stageB lines).2.1 = [] ∨
      ∃ s, (resolveRole label edgeDelta stageB lines).1 = some s := by
  unfold resolveRole
  dsimp only
  split
  · exact Or.inr ⟨_, rfl⟩
  · split
    · exact Or.inl rfl
    · split
      · exact Or.inl rfl
      · split
        · exact Or.inr ⟨_, rfl⟩
        · exact Or.inl rfl

theorem resolveRole_none_elems {label : String} {edgeDelta : Q} {stageB : Q → TextLine → Bool}
    {lines : List TextLine} (h : (resolveRole label edgeDelta stageB lines).1 = none) :
    (resolveRole label edgeDelta stageB lines).2.1 = [] := by
  rcases resolveRole_shape label edgeDelta stageB lines with he | ⟨s, hs⟩
  · exact he
  · rw [h] at hs; cases hs

/-! ## Concrete marker rectangles used by witnesses and counterexamples -/

/-- A visit marker (gray fill `0.81`, width `501`) with `y0 = 10`. -/
def wVisA : Rect := ⟨1, 10, 502, 12, ⟨81, 100, by omega⟩⟩

/-- A visit marker with `y0 = 100`. -/
def wVisB : Rect := ⟨1, 100, 502, 102, ⟨81, 100, by omega⟩⟩

/-- A visit marker with `y0 = 150`. -/
def wVisC : Rect := ⟨1, 150, 502, 152, ⟨81, 100, by omega⟩⟩

/-- A record marker (black fill, `15 × 14`) with `y0 = 200`. -/
def wRecA : Rect := ⟨5, 200, 20, 214, 0⟩

/-- A record marker with `y0 = 300`. -/
def wRecB : Rect := ⟨5, 300, 20, 314, 0⟩

/-! ## C1: region counts and marker-pair ordering -/

/-- **C1 (counterexample).**  The claim asserts that every marker pair used
to build a region satisfies `first.y0 > second.y0`, for visit markers
(`get_visits`) as well as record markers.  On a page whose detected visit
markers are the two markers with `y0 = 10` and `y0 = 100`, `get_visits`
sorts them **ascending** by `y0` and pairs them bottom marker first, so the
pair violates `first.y0 > second.y0`. -/
theorem c1_counterexample :
    visitTags [wVisA, wVisB] = [(wVisA, wVisB)] ∧ ¬ wVisA.y0 > wVisB.y0 := by
  exact ⟨by decide, by decide⟩

/-- **C1 (amended).**  For detected marker lists of even length (and
pairwise distinct marker `y0`, which the strict inequalities require), each
kind yields exactly `len/2` regions; record pairs satisfy
`first.y0 > second.y0` (markers are sorted descending by `y0`), but visit
pairs satisfy the **reverse** ordering `first.y0 < second.y0` (visit
markers are sorted ascending by `y0`). -/
theorem c1_amended (rects : List Rect)
    (hv : (visitMarkersOf rects).length % 2 = 0)
    (hr : (recMarkersOf rects).length % 2 = 0)
    (hdv : (visitMarkersOf rects).Pairwise (fun a b => ¬ Q.Eqv a.y0 b.y0))
    (hdr : (recMarkersOf rects).Pairwise (fun a b => ¬ Q.Eqv a.y0 b.y0)) :
    2 * (get_visits rects).1.length = (visitMarkersOf rects).length ∧
    (∀ p ∈ visitTags rects, p.1.y0 < p.2.y0) ∧
    (∃ rs, get_records rects = .ok rs ∧ 2 * rs.length = (recMarkersOf rects).length) ∧
    (∀ p ∈ recTags rects, p.1.y0 > p.2.y0) := by
  have hsortv : (visitMarkersOf rects).Pairwise leY0 :=
    List.sorted_insertionSort leY0 (rects.filter visitCond)
  have hsortr : (recMarkersOf rects).Pairwise geY0 :=
    List.sorted_insertionSort geY0 (rects.filter recCond)
  have hltv : (visitMarkersOf rects).Pairwise (fun a b => a.y0 < b.y0) :=
    (hsortv.and hdv).imp (fun h => Q.lt_of_le_of_not_eqv h.1 h.2)
  have hltr : (recMarkersOf rects).Pairwise (fun a b => b.y0 < a.y0) :=
    (hsortr.and hdr).imp (fun h => Q.lt_of_le_of_not_eqv h.1 (fun e => h.2 e.symm))
  have hrecs : ∀ p ∈ recTags rects, p.2.y0 < p.1.y0 := pairUp_rel _ hltr
  refine ⟨?_, pairUp_rel _ hltv, ?_, hrecs⟩
  · have := pairUp_length (visitMarkersOf rects)
    simp only [get_visits, List.length_map, visitTags] at *
    omega
  · obtain ⟨rs, hok, hlen⟩ := buildRecords_ok (get_visits rects).1 (recTags rects) hrecs
    refine ⟨rs, hok, ?_⟩
    have := pairUp_length (recMarkersOf rects)
    simp only [recTags] at *
    omega

/-- Witness for `c1_amended` at a concrete four-marker page. -/
theorem c1_amended_witness :
    2 * (get_visits [wVisA, wVisB, wRecA, wRecB]).1.length
        = (visitMarkersOf [wVisA, wVisB, wRecA, wRecB]).length ∧
    (∀ p ∈ visitTags [wVisA, wVisB, wRecA, wRecB], p.1.y0 < p.2.y0) ∧
    (∃ rs, get_records [wVisA, wVisB, wRecA, wRecB] = .ok rs ∧
      2 * rs.length = (recMarkersOf [wVisA, wVisB, wRecA, wRecB]).length) ∧
    (∀ p ∈ recTags [wVisA, wVisB, wRecA, wRecB], p.1.y0 > p.2.y0) :=
  c1_amended [wVisA, wVisB, wRecA, wRecB] (by decide) (by decide) (by decide) (by decide)

/-! ## C4: odd marker counts -/

/-- **C4 (counterexample).**  The claim asserts that an odd count of
matched rectangles of one kind is surfaced as a warning.  On a page whose
detected visit markers are three, `get_visits` silently pairs the first two
and drops the third: it emits no log message at all (the pairing code
contains no logging call). -/
theorem c4_counterexample :
    (visitMarkersOf [wVisA, wVisB, wVisC]).length = 3 ∧
    get_visits [wVisA, wVisB, wVisC] = ([⟨1, 10, 502, 102⟩], []) := by
  exact ⟨by decide, by decide⟩

/-- **C4 (amended).**  An odd count of detected markers of one kind is
silently tolerated: pairing yields `(n-1)/2` pairs (the final unpaired
marker is dropped) and no warning is emitted. -/
theorem c4_amended (rects : List Rect)
    (hv : (visitMarkersOf rects).length % 2 = 1)
    (hr : (recMarkersOf rects).length % 2 = 1) :
    (get_visits rects).2 = [] ∧
    2 * (get_visits rects).1.length + 1 = (visitMarkersOf rects).length ∧
    2 * (recTags rects).length + 1 = (recMarkersOf rects).length := by
  refine ⟨rfl, ?_, ?_⟩
  · have := pairUp_length (visitMarkersOf rects)
    simp only [get_visits, List.length_map, visitTags] at *
    omega
  · have := pairUp_length (recMarkersOf rects)
    simp only [recTags] at *
    omega

/-- Witness for `c4_amended`: three visit markers and one record marker. -/
theorem c4_amended_witness :
    (get_visits [wVisA, wVisB, wVisC, wRecA]).2 = [] ∧
    2 * (get_visits [wVisA, wVisB, wVisC, wRecA]).1.length + 1
        = (visitMarkersOf [wVisA, wVisB, wVisC, wRecA]).length ∧
    2 * (recTags [wVisA, wVisB, wVisC, wRecA]).length + 1
        = (recMarkersOf [wVisA, wVisB, wVisC, wRecA]).length :=
  c4_amended [wVisA, wVisB, wVisC, wRecA] (by decide) (by decide)

/-! ## C2: record box resolution -/

/-- **C2 (confirmed).**  Every record box starts at `(open.x0, open.y1)`;
its lower corner is resolved in priority order: when some visit's top edge
lies strictly between the tentative end and the record's start, the first
such visit overrides the end (pulled to just above the visit top, the
`PRE_VISIT_DIST` gap applied); otherwise the end is the next record pair's
lower marker `y1` offset by the `PRE_RECORD_DIST` gap when a next pair
exists, and the fixed page-bottom sentinel `PRE_PAGE_END_DIST` for the last
record of the page. -/
theorem c2_record_box (visits : List Box) (tag : Rect × Rect) (rest : List (Rect × Rect)) :
    ((recordBoxOf visits tag rest).x0 = tag.1.x0 ∧
     (recordBoxOf visits tag rest).y0 = tag.1.y1) ∧
    (∀ fw, followingVisit visits (recordTentativeY rest) tag.1.y1 = some fw →
      fw ∈ visits ∧ recordTentativeY rest < fw.y1 ∧ fw.y1 < tag.1.y1 ∧
      (recordBoxOf visits tag rest).x1 = fw.x1 ∧
      (recordBoxOf visits tag rest).y1 = fw.y1 + PRE_VISIT_DIST) ∧
    (followingVisit visits (recordTentativeY rest) tag.1.y1 = none →
      (∀ v ∈ visits, ¬ (recordTentativeY rest < v.y1 ∧ v.y1 < tag.1.y1)) ∧
      (recordBoxOf visits tag rest).x1 = RECORD_WIDTH ∧
      (rest = [] → (recordBoxOf visits tag rest).y1 = PRE_PAGE_END_DIST) ∧
      (∀ nt l, rest = nt :: l →
        (recordBoxOf visits tag rest).y1 = nt.2.y1 + PRE_RECORD_DIST)) := by
  refine ⟨?_, ?_, ?_⟩
  · unfold recordBoxOf
    cases h : followingVisit visits (recordTentativeY rest) tag.1.y1 <;> simp [h]
  · intro fw hfw
    have hmem := List.mem_of_find?_eq_some hfw
    have hp := List.find?_some hfw
    simp only [decide_eq_true_eq] at hp
    refine ⟨hmem, hp.1, hp.2, ?_, ?_⟩ <;> · unfold recordBoxOf; simp [hfw]
  · intro hnone
    refine ⟨?_, ?_, ?_, ?_⟩
    · intro v hv hcontra
      have := List.find?_eq_none.mp hnone v hv
      simp [hcontra.1, hcontra.2] at this
    · unfold recordBoxOf; simp [hnone]
    · intro he
      subst he
      simp only [recordTentativeY] at hnone
      unfold recordBoxOf
      simp [recordTentativeY, hnone]
    · intro nt l he
      subst he
      simp only [recordTentativeY] at hnone
      unfold recordBoxOf
      simp [recordTentativeY, hnone]

/-- A visit box whose top edge `y1 = 150` lies between the page-bottom
sentinel `70` and the start `y = 214` of `wRecA`'s record. -/
def wVisBox : Box := ⟨1, 120, 502, 150⟩

/-- Witness for `c2_record_box`: for the last record of a page anchored at
`wRecA`/`wRecB` with `wVisBox` interleaved, the visit override fires. -/
theorem c2_record_box_witness :
    wVisBox ∈ [wVisBox] ∧
    recordTentativeY [] < wVisBox.y1 ∧ wVisBox.y1 < (wRecA, wRecB).1.y1 ∧
    (recordBoxOf [wVisBox] (wRecA, wRecB) []).x1 = wVisBox.x1 ∧
    (recordBoxOf [wVisBox] (wRecA, wRecB) []).y1 = wVisBox.y1 + PRE_VISIT_DIST :=
  (c2_record_box [wVisBox] (wRecA, wRecB) []).2.1 wVisBox (by decide)

/-! ## C3: the record-ordering assertion -/

/-- **C3 (confirmed).**  `Record.__init__` asserts
`anchor[0].y0 > anchor[1].y0`: whenever the anchor pair violates the
ordering, construction raises the assertion immediately (and `get_records`
aborts with it); under the ordering precondition the assertion never fires
and the record is built with the given anchor and box. -/
theorem c3_record_assert (anchor : Rect × Rect) (bbox : Box) :
    (¬ anchor.1.y0 > anchor.2.y0 →
      mkRecord anchor bbox = .error "AssertionError: Order of elements not as expected!" ∧
      ∀ visits rest, buildRecords visits ((anchor, bbox).1 :: rest) =
        .error "AssertionError: Order of elements not as expected!") ∧
    (anchor.1.y0 > anchor.2.y0 → mkRecord anchor bbox = .ok ⟨anchor, bbox⟩) := by
  constructor
  · intro h
    constructor
    · unfold mkRecord
      rw [if_neg h]
    · intro visits rest
      unfold buildRecords
      unfold mkRecord
      rw [if_neg h]
      rfl
  · intro h
    unfold mkRecord
    rw [if_pos h]

/-- Witness for `c3_record_assert`: a violating anchor raises; the
well-ordered anchor `(wRecB, wRecA)` constructs. -/
theorem c3_record_assert_witness :
    mkRecord (wRecA, wRecB) ⟨0, 0, 1, 1⟩ =
      .error "AssertionError: Order of elements not as expected!" ∧
    mkRecord (wRecB, wRecA) ⟨0, 0, 1, 1⟩ = .ok ⟨(wRecB, wRecA), ⟨0, 0, 1, 1⟩⟩ :=
  ⟨((c3_record_assert (wRecA, wRecB) ⟨0, 0, 1, 1⟩).1 (by decide)).1,
   (c3_record_assert (wRecB, wRecA) ⟨0, 0, 1, 1⟩).2 (by decide)⟩

/-! ## C9: visibility of color values -/

/-- **C9 (counterexample).**  The claim asserts that a scalar intensity
below pure white is classified as visible.  A scalar that is not a Python
`int` — e.g. the float `0.5`, the common pdfminer grayscale value — matches
none of the `isinstance` branches: `is_visible` falls off the end and
returns `None`, which is falsy and therefore treated as **invisible** by
every call site. -/
theorem c9_counterexample :
    is_visible (.pyfloat ⟨1, 2, by omega⟩) = .ok none ∧ pyTruthy none = false :=
  ⟨by decide, rfl⟩

/-- **C9 (amended).**  For every color value other than an empty component
tuple, `is_visible` is total (returns without raising); it treats null,
pure white, and the unsupported pattern case (a Python `list`) as
invisible, and its result is truthy (visible) exactly for an **integer**
scalar below pure white or a component tuple of mean below pure white.  A
non-integer scalar falls through every type test and yields the falsy
`None`. -/
theorem c9_amended (c : PyColor) (hne : ∀ vs, c = PyColor.pytuple vs → vs ≠ []) :
    ∃ r : Option Bool, is_visible c = .ok r ∧
      (pyTruthy r = true ↔
        ((∃ n : Int, c = .pyint n ∧ n < 1) ∨
         (∃ vs m, c = .pytuple vs ∧ pyMean vs = .ok m ∧ m < Q.ofInt 1))) := by
  cases c with
  | pynone =>
    exact ⟨some false, rfl, by simp [pyTruthy]⟩
  | pyint n =>
    refine ⟨some (decide (n < 1)), rfl, ?_⟩
    simp [pyTruthy]
  | pyfloat q =>
    exact ⟨none, rfl, by simp [pyTruthy]⟩
  | pylist vs =>
    exact ⟨some false, rfl, by simp [pyTruthy]⟩
  | pytuple vs =>
    cases vs with
    | nil => exact absurd rfl (hne [] rfl)
    | cons q rest =>
      refine ⟨some (decide ((pyMean (q :: rest)).toOption.getD 0 < Q.ofInt 1)), ?_, ?_⟩
      · simp [is_visible, pyMean, Except.map, Except.toOption]
      · constructor
        · intro h
          refine Or.inr ⟨q :: rest, _, rfl, rfl, ?_⟩
          simpa [pyTruthy, pyMean, Except.toOption] using h
        · rintro (⟨n, hn, _⟩ | ⟨vs', m, hvs, hm, hlt⟩)
          · cases hn
          · cases hvs
            simp only [pyMean, Except.ok.injEq] at hm
            simp only [pyTruthy, pyMean, Except.toOption, Option.getD, decide_eq_true_eq]
            exact hm ▸ hlt

/-- Witness for `c9_amended` at the black integer scalar `0`. -/
theorem c9_amended_witness :
    ∃ r : Option Bool, is_visible (PyColor.pyint 0) = .ok r ∧
      (pyTruthy r = true ↔
        ((∃ n : Int, PyColor.pyint 0 = .pyint n ∧ n < 1) ∨
         (∃ vs m, PyColor.pyint 0 = .pytuple vs ∧ pyMean vs = .ok m ∧ m < Q.ofInt 1))) :=
  c9_amended (.pyint 0) (by intro vs h; cases h)

/-! ## C10: the export-date overwrite -/

/-- **C10 (confirmed).**  Whenever the page's export date occurs as a
substring of the item's ISO start timestamp, document assembly writes
`'ExportDuringTreatment'` into the emitted item's exclusion field,
regardless of (and overwriting) any exclusion value previously assigned to
the entry, such as `'CancelledEntry'` or `'InvalidEntry'`. -/
theorem c10_export_overwrite (lastDate tStart tEnd isoStart isoEnd exportDate : String)
    (prev : Option String) (h : pyIn exportDate isoStart = true) :
    (assembleFlatItem lastDate tStart tEnd isoStart isoEnd exportDate prev).exclusion
      = "ExportDuringTreatment" := by
  unfold assembleFlatItem
  simp [h]

/-- Witness for `c10_export_overwrite`: an entry previously tagged
`CancelledEntry` loses its tag. -/
theorem c10_export_overwrite_witness :
    (assembleFlatItem "Fr, 01. Mär 2024" "09:00" "09:30" "2024-03-01 09:00:00"
      "2024-03-01 09:30:00" "2024-03-01" (some "CancelledEntry")).exclusion
      = "ExportDuringTreatment" :=
  c10_export_overwrite "Fr, 01. Mär 2024" "09:00" "09:30" "2024-03-01 09:00:00"
    "2024-03-01 09:30:00" "2024-03-01" (some "CancelledEntry") (by decide)

/-! ## C8: exclusion keywords veto drug matches -/

/-- **C8 (confirmed).**  A text line containing an exclusion keyword
(case-insensitively) contributes nothing to the raw drug-match list: the
list computed with the line present equals the list computed with the line
removed, even when the line also contains a catalogue substance name. -/
theorem c8_excluded_line (pre post : List String) (s : String)
    (hex : excludedLine s = true) :
    drugsRaw (pre ++ s :: post) = drugsRaw (pre ++ post) := by
  unfold drugsRaw
  refine congrArg _ (funext fun d => ?_)
  rw [List.filter_append, List.filter_append, List.filter_cons]
  simp [hex]

/-- Witness for `c8_excluded_line`: the line `"spülen mit Cisplatin"`
contains the catalogue substance `Cisplatin` but also the keyword
`spülen`, and records no drug match. -/
theorem c8_excluded_line_witness :
    excludedLine "spülen mit Cisplatin" = true ∧
    drugsRaw ["spülen mit Cisplatin"] = drugsRaw [] :=
  ⟨by decide, c8_excluded_line [] [] "spülen mit Cisplatin" (by decide)⟩

/-! ## C5: record-header column count -/

/-- **C5 (amended).**  Given a well-formed `Protokoll` anchor line, a
header column count different from the expected 3 is logged; when the
count exceeds 3 extraction proceeds on the first three columns and returns
data (given the date collaborator parses the first column), but when the
count is **below** 3 `Record.get_data` raises (an `IndexError` or a date
parse error) instead of yielding the parsed subset. -/
theorem c5_header_count {α : Type} (strptime : String → Except String α)
    (textlines : List TextLine) (anchor : Rect × Rect) (pageID : Nat) (pageNumber : Int)
    (hprot : (protokollOf textlines anchor).length = 1) :
    ((headerOf textlines anchor).length ≠ 3 →
      "debug: Header length not 3"
        ∈ (recordGetData strptime textlines anchor pageID pageNumber).1) ∧
    ((headerOf textlines anchor).length < 3 →
      ∃ msg, (recordGetData strptime textlines anchor pageID pageNumber).2 = .error msg) ∧
    (3 ≤ (headerOf textlines anchor).length →
      ∀ h0, (headerOf textlines anchor).get? 0 = some h0 →
      ∀ a, strptime (pyStripNl h0.text) = .ok a →
      ∃ d, (recordGetData strptime textlines anchor pageID pageNumber).2 = .ok d) := by
  have hif : ¬ ((protokollOf textlines anchor).length ≠ 1) := by simp [hprot]
  unfold recordGetData
  rw [if_neg hif]
  dsimp only
  refine ⟨?_, ?_, ?_⟩
  · intro h3
    rw [if_pos h3]
    cases hg0 : (headerOf textlines anchor).get? 0 with
    | none => simp
    | some h0 =>
      dsimp only
      cases hst : strptime (pyStripNl h0.text) with
      | error e => simp
      | ok a =>
        dsimp only
        cases hg1 : (headerOf textlines anchor).get? 1 with
        | none => simp
        | some h1 =>
          dsimp only
          cases hg2 : (headerOf textlines anchor).get? 2 with
          | none => simp
          | some h2 => simp
  · intro hlt
    cases hg0 : (headerOf textlines anchor).get? 0 with
    | none => exact ⟨_, rfl⟩
    | some h0 =>
      dsimp only
      cases hst : strptime (pyStripNl h0.text) with
      | error e => exact ⟨_, rfl⟩
      | ok a =>
        dsimp only
        cases hg1 : (headerOf textlines anchor).get? 1 with
        | none => exact ⟨_, rfl⟩
        | some h1 =>
          dsimp only
          have hg2 : (headerOf textlines anchor).get? 2 = none :=
            List.get?_eq_none.mpr (by omega)
          rw [hg2]
          exact ⟨_, rfl⟩
  · intro hge h0 hg0 a hst
    rw [hg0]
    dsimp only
    rw [hst]
    dsimp only
    have hg1 : ∃ h1, (headerOf textlines anchor).get? 1 = some h1 := by
      cases hx : (headerOf textlines anchor).get? 1 with
      | none => exact absurd (List.get?_eq_none.mp hx) (by omega)
      | some h1 => exact ⟨h1, rfl⟩
    obtain ⟨h1, hg1⟩ := hg1
    rw [hg1]
    dsimp only
    have hg2 : ∃ h2, (headerOf textlines anchor).get? 2 = some h2 := by
      cases hx : (headerOf textlines anchor).get? 2 with
      | none => exact absurd (List.get?_eq_none.mp hx) (by omega)
      | some h2 => exact ⟨h2, rfl⟩
    obtain ⟨h2, hg2⟩ := hg2
    rw [hg2]
    exact ⟨_, rfl⟩

/-- A trivially succeeding date collaborator for the C5 scenarios. -/
def c5strptime : String → Except String String := fun s => .ok s

/-- The record anchor used by the C5 scenarios: the upper marker spans
`y ∈ (100, 110)`, the lower marker spans `y ∈ (50, 60)`. -/
def c5anchor : Rect × Rect := (⟨0, 100, 10, 110, 0⟩, ⟨0, 50, 10, 60, 0⟩)

/-- The `Protokoll` line (midpoint `105`). -/
def c5prot : TextLine := ⟨10, 104, 200, 106, "Zyklus: 1. Zyklus 2"⟩

/-- Header column 1 (midpoint `55`, `x0 = 10`): the date field. -/
def c5h1 : TextLine := ⟨10, 54, 80, 56, "Mo, 01. Jan 2024"⟩

/-- Header column 2 (`x0 = 200`): the day field. -/
def c5h2 : TextLine := ⟨200, 54, 280, 56, "Tag 1 - Tag 1 der Behandlung"⟩

/-- Header column 3 (`x0 = 300`): the location field. -/
def c5h3 : TextLine := ⟨300, 54, 340, 56, "Station A | Haus 1"⟩

/-- A fourth header column (`x0 = 400`). -/
def c5h4 : TextLine := ⟨400, 54, 440, 56, "extra"⟩

/-- **C5 (counterexample).**  The claim asserts that a malformed column
count is logged but does not raise.  With only two header columns,
`Record.get_data` logs the anomaly and then raises `IndexError` at
`header_verordnung[2]`, yielding no data at all. -/
theorem c5_counterexample :
    recordGetData c5strptime [c5prot, c5h1, c5h2] c5anchor 0 1 =
      (["debug: Header length not 3"], .error "IndexError: list index out of range") := by
  decide

/-- Witness for `c5_header_count`: a four-column header is logged and still
yields data. -/
theorem c5_header_count_witness :
    ((headerOf [c5prot, c5h1, c5h2, c5h3, c5h4] c5anchor).length ≠ 3 →
      "debug: Header length not 3"
        ∈ (recordGetData c5strptime [c5prot, c5h1, c5h2, c5h3, c5h4] c5anchor 0 1).1) ∧
    ((headerOf [c5prot, c5h1, c5h2, c5h3, c5h4] c5anchor).length < 3 →
      ∃ msg, (recordGetData c5strptime [c5prot, c5h1, c5h2, c5h3, c5h4] c5anchor 0 1).2
        = .error msg) ∧
    (3 ≤ (headerOf [c5prot, c5h1, c5h2, c5h3, c5h4] c5anchor).length →
      ∀ h0, (headerOf [c5prot, c5h1, c5h2, c5h3, c5h4] c5anchor).get? 0 = some h0 →
      ∀ a, c5strptime (pyStripNl h0.text) = Except.ok a →
      ∃ d, (recordGetData c5strptime [c5prot, c5h1, c5h2, c5h3, c5h4] c5anchor 0 1).2
        = .ok d) :=
  c5_header_count c5strptime [c5prot, c5h1, c5h2, c5h3, c5h4] c5anchor 0 1 (by decide)

/-! ## C6: entries with no resolved role -/

/-- **C6 (confirmed).**  When, after both extraction stages, none of the
three roles resolves, `Entry.get_data` stops early: every clinical field
(`application`, `premed`, `drug`, `arzt`, `apotheker`, `verabreicht`) is
left null, the exclusion tag is `'CancelledEntry'` when some line contains
`'storniert'` (case-insensitively) and `'InvalidEntry'` otherwise, and no
exception is raised (the anchors parsed, which is all that precedes the
role blocks). -/
theorem c6_invalid_entry (dedup : List String → List String) (lines : List TextLine)
    (tsText medText : String) (m : Int) (s e : String)
    (hm : pyMedNr medText = .ok m)
    (ht : pyTimestampSplit tsText = .ok (s, e))
    (ha : (resolveArzt lines).1 = none)
    (hp : (resolveApotheker lines).1 = none)
    (hn : (resolveVerabreicht lines).1 = none) :
    ∃ logs, entryGetData dedup lines tsText medText =
      (logs, .ok ⟨m, s, e, none, none, none, none, none, none,
        some (if lines.any (fun ln => pyIn "storniert" (pyLower ln.text))
              then "CancelledEntry" else "InvalidEntry")⟩) := by
  have hE : entryEndElems lines = [] := by
    unfold entryEndElems resolveArzt resolveApotheker resolveVerabreicht
    unfold resolveArzt at ha
    unfold resolveApotheker at hp
    unfold resolveVerabreicht at hn
    rw [resolveRole_none_elems ha, resolveRole_none_elems hp, resolveRole_none_elems hn]
    rfl
  unfold entryGetData
  rw [hm]
  dsimp only
  rw [ht]
  dsimp only
  rw [hE]
  dsimp only [List.isEmpty_nil]
  rw [if_pos rfl]
  exact ⟨_, rfl⟩

/-- The single line of the C6 witness entry: no role label, but the
cancellation keyword. -/
def c6line : TextLine := ⟨10, 30, 200, 32, "Infusion storniert wegen X"⟩

/-- Witness for `c6_invalid_entry` at a concrete cancelled entry. -/
theorem c6_invalid_entry_witness :
    ∃ logs, entryGetData List.dedup [c6line] "10:00" "Med. Nr.: 42" =
      (logs, .ok ⟨42, "10:00", "10:00", none, none, none, none, none, none,
        some "CancelledEntry"⟩) := by
  have h := c6_invalid_entry List.dedup [c6line] "10:00" "Med. Nr.: 42" 42 "10:00" "10:00"
    (by decide) (by decide) (by decide) (by decide) (by decide)
  rw [if_pos (by decide)] at h
  exact h

/-! ## C7: multiple surviving drug matches -/

/-- **C7 (amended).**  For an entry with two or more surviving
(non-excluded, deduplicated, note-catalogue-removed) primary-catalogue drug
matches, the drug field is the surviving matches joined with `'+'` **in the
order produced by the `list(set(...))` deduplication** — an order CPython
does not specify, so not necessarily catalogue-priority order — the
ambiguity is logged as a warning, and no exception is raised. -/
theorem c7_multiple_drugs (dedup : List String → List String) (lines : List TextLine)
    (tsText medText : String) (m : Int) (s e : String)
    (hm : pyMedNr medText = .ok m)
    (ht : pyTimestampSplit tsText = .ok (s, e))
    (hne : (entryEndElems lines).isEmpty = false)
    (h2 : 2 ≤ (survivingDrugs dedup ((entryKeptLines lines).map (·.text))).length) :
    ∃ logs d, entryGetData dedup lines tsText medText = (logs, .ok d) ∧
      d.drug = some (String.intercalate "+"
        (survivingDrugs dedup ((entryKeptLines lines).map (·.text)))) ∧
      d.exclusion = none ∧
      "warning: Multiple notable drugs found" ∈ logs := by
  unfold entryGetData
  rw [hm]
  dsimp only
  rw [ht]
  dsimp only
  rw [hne]
  simp only [Bool.false_eq_true, if_false]
  refine ⟨_, _, rfl, ?_, rfl, ?_⟩
  · dsimp only
    rw [if_neg (by omega), if_pos (by omega)]
  · dsimp only
    rw [if_pos (by omega : 1 < (survivingDrugs dedup ((entryKeptLines lines).map (·.text))).length)]
    exact List.mem_append.mpr (Or.inr (List.mem_singleton.mpr rfl))

/-- The role line of the C7 entries (resolves `Arzt`, so the entry is not
excluded). -/
def c7arzt : TextLine := ⟨10, 10, 200, 12, "Arzt: Dr. X (ab)"⟩

/-- A line naming the catalogue drug `Doxorubicinhydrochlorid`. -/
def c7l1 : TextLine := ⟨10, 30, 200, 32, "Doxorubicinhydrochlorid"⟩

/-- A line naming the catalogue drug `Dacarbazin`. -/
def c7l2 : TextLine := ⟨10, 50, 200, 52, "Dacarbazin"⟩

/-- A deduplication that enumerates the set in reversed first-occurrence
order — one of the orders CPython's hash-randomized `set` may produce. -/
def revDedup : List String → List String := fun l => l.reverse.dedup

theorem isDedup_revDedup : IsDedup revDedup := by
  intro l
  refine ⟨List.nodup_dedup _, fun x => ?_⟩
  simp [revDedup]

/-- **C7 (counterexample).**  The claim asserts the composite label joins
the matches in catalogue-priority order (`Doxorubicinhydrochlorid` before
`Dacarbazin`).  Under a legal `set` iteration order the code emits the
reversed label: the order is decided by the unspecified hash order, not by
catalogue priority. -/
theorem c7_counterexample :
    IsDedup revDedup ∧
    (entryGetData revDedup [c7arzt, c7l1, c7l2] "09:00 - 10:30" "Med. Nr.: 7").2 =
      .ok ⟨7, "09:00", "10:30", some "other", some "", some "Dacarbazin+Doxorubicinhydrochlorid",
        some "ab", none, none, none⟩ ∧
    "Dacarbazin+Doxorubicinhydrochlorid" ≠ "Doxorubicinhydrochlorid+Dacarbazin" :=
  ⟨isDedup_revDedup, by decide, by decide⟩

/-- Witness for `c7_multiple_drugs` with the first-occurrence-order dedup
`List.dedup`. -/
theorem c7_multiple_drugs_witness :
    ∃ logs d, entryGetData List.dedup [c7arzt, c7l1, c7l2] "09:00 - 10:30" "Med. Nr.: 7"
        = (logs, .ok d) ∧
      d.drug = some (String.intercalate "+"
        (survivingDrugs List.dedup ((entryKeptLines [c7arzt, c7l1, c7l2]).map (·.text)))) ∧
      d.exclusion = none ∧
      "warning: Multiple notable drugs found" ∈ logs :=
  c7_multiple_drugs List.dedup [c7arzt, c7l1, c7l2] "09:00 - 10:30" "Med. Nr.: 7" 7 "09:00" "10:30"
    (by decide) (by decide) (by decide) (by decide)

end Cato
